import Mathlib

/-!
Shallow embedding of the exchange REST adapters of `aioquant`
(`aioquant/platform/binance.py`, `huobi.py`, `okex.py`): the canonical
request builders, the per-exchange signing protocols and the response
normalizers, together with theorems checking the specification's claims
about them.

Conventions of the embedding:
* Python dicts become association lists (`List (String × β)`) in insertion
  order; `dict.update` / item assignment become `dictSet` / `dictUpdate`,
  which overwrite in place or append, exactly as CPython dicts do.
* JSON values become the inductive `JValue`; Python truthiness becomes
  `pyTruthy`.
* The external HTTP transport (`AsyncHttpRequests.fetch`) is a
  collaborator outside the repository: the request the adapter would
  hand to it is reified as a `…Fetch` structure, and its response is an
  explicit argument `(success?, error?)`.  A returned `…Fetch` value
  means the network call is issued; an `Except.error` escaping before it
  means the call never happens.
* The HMAC-SHA256 primitives from Python's `hashlib`/`hmac`/`base64`
  (also external libraries) are abstracted as function parameters
  (`hmacHex`, `hmacB64`): every theorem below holds for an arbitrary
  digest function, so nothing depends on properties of the hash itself.
* Uncaught Python exceptions become `Except.error` with a `PyExc` tag.
-/

/-- Uncaught Python exception kinds relevant to the adapters. -/
inductive PyExc where
  /-- Python `AttributeError`, e.g. `None.encode(...)` when the secret key is absent. -/
  | attributeError
  /-- Python `TypeError`, e.g. `bytes(None, encoding="utf8")` or subscripting `None`. -/
  | typeError
  /-- Python `KeyError`, raised by `d[k]` on a missing key. -/
  | keyError
  /-- Modelled from the spec: the spec's error taxonomy names a
  `ConfigurationError` for missing credentials, but no such class exists
  anywhere in the sources; the constructor exists only so that theorems can
  compare the code's actual failure against the spec's claimed one. -/
  | configurationError
deriving DecidableEq

/-- JSON-like values, the payloads flowing through the adapters. -/
inductive JValue where
  | jNull
  | jBool (b : Bool)
  | jNum (n : Int)
  | jStr (s : String)
  | jArr (elems : List JValue)
  | jObj (fields : List (String × JValue))

/-- Python truthiness (`if x:`) of a JSON-like value. -/
def pyTruthy : JValue → Bool
  | .jNull => false
  | .jBool b => b
  | .jNum n => n != 0
  | .jStr s => s != ""
  | .jArr xs => !xs.isEmpty
  | .jObj fs => !fs.isEmpty

/-- Python truthiness of an optional string argument (`None` and `""` are falsy). -/
def truthyOpt : Option String → Bool
  | none => false
  | some s => s != ""

/-- Python truthiness of an optional list argument (`None` and `[]` are falsy). -/
def truthyList : Option (List α) → Bool
  | none => false
  | some l => !l.isEmpty

/-- Python truthiness of the `error` slot returned by the transport. -/
def errTruthy : Option JValue → Bool
  | none => false
  | some e => pyTruthy e

/-- An absent optional dict argument behaves as the empty dict. -/
def pyOptList : Option (List α) → List α
  | none => []
  | some l => l

/-- Lookup in an insertion-ordered dict (`d.get(k)` / `d[k]`). -/
def alookup (k : String) : List (String × β) → Option β
  | [] => none
  | p :: rest => if k = p.1 then some p.2 else alookup k rest

/-- Item assignment `d[k] = v` on an insertion-ordered dict: overwrite the
value in place if the key exists, otherwise append the pair. -/
def dictSet : List (String × β) → String → β → List (String × β)
  | [], k, v => [(k, v)]
  | p :: rest, k, v => if p.1 = k then (k, v) :: rest else p :: dictSet rest k v

/-- Python `d.update(e)`: fold item assignment over `e` in its order. -/
def dictUpdate (d e : List (String × β)) : List (String × β) :=
  e.foldl (fun acc p => dictSet acc p.1 p.2) d

/-- Binance `data = {}; data.update(params); data.update(body)`
(`binance.py`, `request`, lines 338-342); falsy arguments are skipped,
which coincides with updating by the empty dict. -/
def pyDictMerge (params body : Option (List (String × String))) :
    List (String × String) :=
  dictUpdate (dictUpdate [] (pyOptList params)) (pyOptList body)

/-- The `"&".join(["=".join([str(k), str(v)]) for k, v in data.items()])`
concatenation used by both Binance (insertion order) and, after sorting,
by Huobi and OKEx. -/
def joinPairs : List (String × String) → String
  | [] => ""
  | [(k, v)] => k ++ "=" ++ v
  | (k, v) :: rest => k ++ "=" ++ v ++ "&" ++ joinPairs rest

/-- Python `sorted` on a list of strings: lexicographic by code points. -/
def sortStrings (l : List String) : List String :=
  List.insertionSort (· ≤ ·) l

/-- An uppercase hexadecimal digit. -/
def hexDigitUpper (n : Nat) : Char :=
  if n < 10 then Char.ofNat (48 + n) else Char.ofNat (55 + n)

/-- A lowercase hexadecimal digit. -/
def hexDigitLower (n : Nat) : Char :=
  if n < 10 then Char.ofNat (48 + n) else Char.ofNat (87 + n)

/-- Percent-encoding of one UTF-8 byte as done by `urllib.parse.quote`
with the default `safe="/"`: ASCII letters, digits, `_ . - ~` and `/`
pass through, everything else becomes `%XX` with uppercase hex. -/
def quoteByte (b : UInt8) : String :=
  let n := b.toNat
  if (65 ≤ n && n ≤ 90) || (97 ≤ n && n ≤ 122) || (48 ≤ n && n ≤ 57) ||
      n = 95 || n = 46 || n = 45 || n = 126 || n = 47 then
    String.singleton (Char.ofNat n)
  else
    "%" ++ String.singleton (hexDigitUpper (n / 16)) ++
      String.singleton (hexDigitUpper (n % 16))

/-- Python `urllib.parse.quote(s)` (default `safe="/"`), used by the Huobi
signer on every parameter value. -/
def pyQuote (s : String) : String :=
  String.join (s.toUTF8.toList.map quoteByte)

/-- Escaping of one character inside a JSON string literal as done by
`json.dumps` (ASCII data; the shorthand escapes for control characters are
rendered in their `\u00xx` form, and no adapter value contains any). -/
def jsonEscapeChar (c : Char) : String :=
  if c.toNat = 34 then "\\\""
  else if c.toNat = 92 then "\\\\"
  else if c.toNat < 32 then
    "\\u00" ++ String.singleton (hexDigitLower (c.toNat / 16)) ++
      String.singleton (hexDigitLower (c.toNat % 16))
  else String.singleton c

/-- Escaping of a JSON string literal body. -/
def jsonEscape (s : String) : String :=
  String.join (s.toList.map jsonEscapeChar)

mutual

/-- Python `json.dumps` with its default separators `", "` and `": "`,
applied by the OKEx adapter to request bodies before signing. -/
def jsonDumps : JValue → String
  | .jNull => "null"
  | .jBool true => "true"
  | .jBool false => "false"
  | .jNum n => toString n
  | .jStr s => "\"" ++ jsonEscape s ++ "\""
  | .jArr xs => "[" ++ String.intercalate ", " (jsonDumpsList xs) ++ "]"
  | .jObj fs => "\x7b" ++ String.intercalate ", " (jsonDumpsFields fs) ++ "\x7d"

/-- Serialization of the elements of a JSON array. -/
def jsonDumpsList : List JValue → List String
  | [] => []
  | v :: rest => jsonDumps v :: jsonDumpsList rest

/-- Serialization of the fields of a JSON object. -/
def jsonDumpsFields : List (String × JValue) → List String
  | [] => []
  | f :: rest => ("\"" ++ jsonEscape f.1 ++ "\": " ++ jsonDumps f.2) :: jsonDumpsFields rest

end

/-- The request a Binance adapter hands to `AsyncHttpRequests.fetch`. -/
structure BinanceFetch where
  method : String
  url : String
  headers : List (String × String)

/-- Embedding of `BinanceRestAPI.request` (`binance.py`, lines 322-358) up
to the transport boundary: build the merged parameter dict, join it into a
query string, sign it when `auth` is set and the query is non-empty, attach
the `X-MBX-APIKEY` header, and return the fetch call that is issued.
`hmacHex sk q` stands for
`hmac.new(sk.encode(), q.encode(), hashlib.sha256).hexdigest()`;
a `None` secret key makes that line raise `AttributeError` instead. -/
def binanceRequest (hmacHex : String → String → String) (accessKey : String)
    (secretKey : Option String) (host method uri : String)
    (params body : Option (List (String × String)))
    (headers0 : Option (List (String × String))) (auth : Bool) :
    Except PyExc BinanceFetch :=
  let url := host ++ uri
  let data := pyDictMerge params body
  let query := if data.isEmpty then "" else joinPairs data
  let signedQuery : Except PyExc String :=
    if auth ∧ query ≠ "" then
      match secretKey with
      | none => .error .attributeError
      | some sk => .ok (query ++ "&signature=" ++ hmacHex sk query)
    else .ok query
  signedQuery.map fun q =>
    ⟨method, if q = "" then url else url ++ "?" ++ q,
      dictSet (pyOptList headers0) "X-MBX-APIKEY" accessKey⟩

/-- The request a Huobi adapter hands to `AsyncHttpRequests.fetch`
(`fetch(method, url, params=params, data=body, headers=headers, …)`). -/
structure HuobiFetch where
  method : String
  url : String
  params : Option (List (String × String))
  data : Option JValue
  headers : List (String × String)

/-- Headers Huobi attaches to `GET` requests (`huobi.py`, lines 295-300). -/
def huobiGetHeaders : List (String × String) :=
  [("Content-type", "application/x-www-form-urlencoded"),
   ("User-Agent", "Mozilla/5.0 (Windows NT 6.1; WOW64) AppleWebKit/537.36 (KHTML, like Gecko) Chrome/39.0.2171.71 Safari/537.36")]

/-- Headers Huobi attaches to non-`GET` requests (`huobi.py`, lines 301-305). -/
def huobiPostHeaders : List (String × String) :=
  [("Accept", "application/json"), ("Content-type", "application/json")]

/-- Embedding of `HuobiRestAPI.generate_signature` (`huobi.py`, lines
316-325): join `k=quote(v)` over the params with keys sorted
lexicographically, build the four-line payload `method\nhost\npath\nquery`,
and MAC it.  `hmacB64 sk payload` stands for
`base64.b64encode(hmac.new(sk, payload, sha256).digest()).decode()`;
a `None` secret key raises `AttributeError` at `secret_key.encode(…)`
before any MAC is computed. -/
def huobiGenerateSignature (hmacB64 : String → String → String)
    (secretKey : Option String) (method : String)
    (params : List (String × String)) (hostUrl requestPath : String) :
    Except PyExc String :=
  let query := joinPairs ((sortStrings (params.map Prod.fst)).map
    fun k => (k, pyQuote ((alookup k params).getD "")))
  let payload := method ++ "\n" ++ hostUrl ++ "\n" ++ requestPath ++ "\n" ++ query
  match secretKey with
  | none => .error .attributeError
  | some sk => .ok (hmacB64 sk payload)

/-- The four authentication entries Huobi's signer inserts into the query
params via `params.update({...})` (`huobi.py`, lines 287-290), in the
dict literal's order. -/
def huobiAuthParams (accessKey timestamp : String)
    (params : List (String × String)) : List (String × String) :=
  dictSet (dictSet (dictSet (dictSet params
    "AccessKeyId" accessKey)
    "SignatureMethod" "HmacSHA256")
    "SignatureVersion" "2")
    "Timestamp" timestamp

/-- Query parameter keys Huobi's signer may insert or overwrite. -/
def huobiReservedKeys : List String :=
  ["AccessKeyId", "SignatureMethod", "SignatureVersion", "Timestamp", "Signature"]

/-- Check of `success.get("status") != "ok"` on the looked-up field:
absence and any non-string value compare unequal to `"ok"`. -/
def isStatusOk : Option JValue → Bool
  | some (.jStr s) => s == "ok"
  | _ => false

/-- Embedding of the Huobi response normalizer (`huobi.py`, lines 308-314):
a truthy transport error is passed through unchanged (together with
whatever sits in the success slot); otherwise the body must be a JSON
object (string bodies are assumed already parsed by the transport; a
non-dict body makes the subsequent `.get` raise) whose `status` field
gates between `(body, None)` and `(None, body)`. -/
def huobiNormalize : Option JValue × Option JValue →
    Except PyExc (Option JValue × Option JValue)
  | (success, error) =>
    if errTruthy error then .ok (success, error)
    else
      match success with
      | some (.jObj fs) =>
        if isStatusOk (alookup "status" fs) then .ok (some (.jObj fs), none)
        else .ok (none, some (.jObj fs))
      | _ => .error .typeError

/-- Shared tail of `HuobiRestAPI.request`: pick the headers by method,
issue the fetch, and normalize its `(success, error)` response. -/
def huobiFinish (method url : String)
    (params : Option (List (String × String))) (body : Option JValue)
    (fetchRes : Option JValue × Option JValue) :
    Except PyExc (HuobiFetch × (Option JValue × Option JValue)) :=
  let headers := if method = "GET" then huobiGetHeaders else huobiPostHeaders
  match huobiNormalize fetchRes with
  | .error e => .error e
  | .ok out => .ok (⟨method, url, params, body, headers⟩, out)

/-- Embedding of `HuobiRestAPI.request` (`huobi.py`, lines 269-314) up to
the transport boundary.  When `auth` is set the signer inserts the four
authentication params and the `Signature` param into the query dict
(`timestamp` is the pre-captured UTC timestamp string, `hostName` the
lowercased host); the fetch response is then normalized. -/
def huobiRequest (hmacB64 : String → String → String) (accessKey : String)
    (secretKey : Option String) (host hostName timestamp method uri : String)
    (params0 : Option (List (String × String))) (body : Option JValue)
    (auth : Bool) (fetchRes : Option JValue × Option JValue) :
    Except PyExc (HuobiFetch × (Option JValue × Option JValue)) :=
  let url := host ++ uri
  if auth then
    let p := huobiAuthParams accessKey timestamp (pyOptList params0)
    match huobiGenerateSignature hmacB64 secretKey method p hostName uri with
    | .error e => .error e
    | .ok sig => huobiFinish method url (some (dictSet p "Signature" sig)) body fetchRes
  else huobiFinish method url params0 body fetchRes

/-- Modelled from the spec: the order constants imported by `okex.py` from
`aioquant.order`, a module of this repository whose source is not included;
the spec's interface section names the actions `BUY`/`SELL` and the order
types `LIMIT`/`MARKET`. -/
def ORDER_ACTION_BUY : String := "BUY"

/-- Modelled from the spec: the `LIMIT` order-type constant from
`aioquant.order` (see `ORDER_ACTION_BUY`). -/
def ORDER_TYPE_LIMIT : String := "LIMIT"

/-- Modelled from the spec: the `MARKET` order-type constant from
`aioquant.order` (see `ORDER_ACTION_BUY`). -/
def ORDER_TYPE_MARKET : String := "MARKET"

/-- The body slot of an OKEx fetch call: absent, a raw (unserialized)
JSON value on unauthenticated calls, or the `json.dumps` string substituted
by the signer on authenticated calls. -/
inductive BodySent where
  | noBody
  | raw (j : JValue)
  | str (s : String)

/-- The request an OKEx adapter hands to `AsyncHttpRequests.fetch`
(`fetch(method, url, body=body, headers=headers, …)`). -/
structure OkexFetch where
  method : String
  url : String
  body : BodySent
  headers : Option (List (String × String))

/-- The five headers OKEx's signer sets (`okex.py`, lines 307-311), in
assignment order. -/
def okexAuthHeaders (headers : List (String × String))
    (accessKey sign timestamp passphrase : String) : List (String × String) :=
  dictSet (dictSet (dictSet (dictSet (dictSet headers
    "Content-Type" "application/json")
    "OK-ACCESS-KEY" accessKey)
    "OK-ACCESS-SIGN" sign)
    "OK-ACCESS-TIMESTAMP" timestamp)
    "OK-ACCESS-PASSPHRASE" passphrase

/-- Header keys OKEx's signer may insert or overwrite. -/
def okexReservedHeaderKeys : List String :=
  ["Content-Type", "OK-ACCESS-KEY", "OK-ACCESS-SIGN", "OK-ACCESS-TIMESTAMP",
   "OK-ACCESS-PASSPHRASE"]

/-- The uri after `okex.py` lines 288-290: when params are truthy, the
sorted, unquoted `k=v` query join is appended to the path; the signer never
touches this again, so every caller-built query pair survives verbatim. -/
def okexUriWithQuery (uri0 : String)
    (params : Option (List (String × String))) : String :=
  if truthyList params then
    uri0 ++ "?" ++ joinPairs ((sortStrings ((pyOptList params).map Prod.fst)).map
      fun k => (k, (alookup k (pyOptList params)).getD ""))
  else uri0

/-- The body serialization of `okex.py` lines 295-298 on authenticated
requests: `json.dumps(body)` when the body is truthy, `""` otherwise. -/
def okexBodyStr (body : Option JValue) : String :=
  match body with
  | some b => if pyTruthy b then jsonDumps b else ""
  | none => ""

/-- Embedding of `OKExRestAPI.request` (`okex.py`, lines 273-313) up to the
transport boundary: append the sorted query to the uri when params are
truthy, and when `auth` is set serialize the body (`""` when falsy), build
the message `timestamp + METHOD + uri + body`, MAC it and set the five
auth headers.  `timestamp` is the pre-captured `time.time()` string;
`hmacB64 sk m` stands for
`base64.b64encode(hmac.new(bytes(sk, "utf8"), bytes(m, "utf-8"), "sha256").digest()).decode()`;
a `None` secret key makes `bytes(None, encoding="utf8")` raise `TypeError`
before any MAC is computed. -/
def okexRequest (hmacB64 : String → String → String) (accessKey : String)
    (secretKey : Option String) (passphrase : String) (host timestamp : String)
    (method uri0 : String) (params : Option (List (String × String)))
    (body : Option JValue) (headers0 : Option (List (String × String)))
    (auth : Bool) : Except PyExc OkexFetch :=
  let uri := okexUriWithQuery uri0 params
  let url := host ++ uri
  if auth then
    let bodyStr := okexBodyStr body
    let message := timestamp ++ method.toUpper ++ uri ++ bodyStr
    match secretKey with
    | none => .error .typeError
    | some sk =>
      .ok ⟨method, url, .str bodyStr,
        some (okexAuthHeaders (pyOptList headers0) accessKey (hmacB64 sk message)
          timestamp passphrase)⟩
  else
    .ok ⟨method, url,
      (match body with
       | none => .noBody
       | some b => .raw b), headers0⟩

/-- Shared tail of `OKExRestAPI.create_order`: append `client_oid` when
truthy (`okex.py`, lines 153-154) and POST the body with authentication,
passing the transport's response through unchanged (lines 155-156). -/
def okexOrderPost (hmacB64 : String → String → String) (accessKey : String)
    (secretKey : Option String) (passphrase : String) (host timestamp : String)
    (data : List (String × JValue)) (clientOid : Option String)
    (fetchRes : Option JValue × Option JValue) :
    Option OkexFetch × Except PyExc (Option JValue × Option JValue) :=
  let d := if truthyOpt clientOid then
      dictSet data "client_oid" (.jStr (clientOid.getD "")) else data
  match okexRequest hmacB64 accessKey secretKey passphrase host timestamp
      "POST" "/api/spot/v3/orders" none (some (.jObj d)) none true with
  | .error e => (none, .error e)
  | .ok fc => (some fc, .ok fetchRes)

/-- Embedding of `OKExRestAPI.create_order` (`okex.py`, lines 120-156):
build the order body by order type (limit orders carry `price`+`size`;
market buys carry `notional`, market sells `size`), reject unknown order
types with `(None, "order type error!")` before any request is built, and
otherwise POST the body with authentication.  The first component is the
fetch call issued (`none` when no network request happens); the second is
the `(result, error)` outcome, where `fetchRes` is the transport's
response to the POST. -/
def okexCreateOrder (hmacB64 : String → String → String) (accessKey : String)
    (secretKey : Option String) (passphrase : String) (host timestamp : String)
    (action symbol price quantity : String) (orderType : String)
    (clientOid : Option String) (fetchRes : Option JValue × Option JValue) :
    Option OkexFetch × Except PyExc (Option JValue × Option JValue) :=
  let data0 : List (String × JValue) :=
    [("side", .jStr (if action = ORDER_ACTION_BUY then "buy" else "sell")),
     ("instrument_id", .jStr symbol),
     ("margin_trading", .jNum 1)]
  if orderType = ORDER_TYPE_LIMIT then
    let d := dictSet (dictSet (dictSet data0 "type" (.jStr "limit"))
      "price" (.jStr price)) "size" (.jStr quantity)
    okexOrderPost hmacB64 accessKey secretKey passphrase host timestamp d
      clientOid fetchRes
  else if orderType = ORDER_TYPE_MARKET then
    let d0 := dictSet data0 "type" (.jStr "market")
    let d := if action = ORDER_ACTION_BUY then dictSet d0 "notional" (.jStr quantity)
      else dictSet d0 "size" (.jStr quantity)
    okexOrderPost hmacB64 accessKey secretKey passphrase host timestamp d
      clientOid fetchRes
  else
    (none, .ok (none, some (.jStr "order type error!")))

/-- Post-processing of the cancel response in `OKExRestAPI.revoke_order`
(`okex.py`, lines 181-186): a truthy transport error yields
`(order_id, error)`; otherwise `result["result"]` is inspected (raising
`TypeError` on a non-dict result and `KeyError` on a missing field), a
truthy value yields `(order_id, None)` and a falsy one `(order_id, result)`.
Note the code places `order_id` — not `None` — in the result slot of every
one of these returns. -/
def okexCancelOutcome (orderId : Option String)
    (fetchRes : Option JValue × Option JValue) :
    Except PyExc (Option JValue × Option JValue) :=
  if errTruthy fetchRes.2 then .ok (orderId.map .jStr, fetchRes.2)
  else
    match fetchRes.1 with
    | some (.jObj fs) =>
      match alookup "result" fs with
      | none => .error .keyError
      | some v =>
        if pyTruthy v then .ok (orderId.map .jStr, none)
        else .ok (orderId.map .jStr, some (.jObj fs))
    | _ => .error .typeError

/-- Embedding of `OKExRestAPI.revoke_order` (`okex.py`, lines 158-186):
pick the cancel path from `order_id` when truthy, else from `client_oid`
when truthy, else return `(None, "order id error!")` without any request;
then POST `{"instrument_id": symbol}` with authentication and post-process
the response with `okexCancelOutcome`. -/
def okexRevokeOrder (hmacB64 : String → String → String) (accessKey : String)
    (secretKey : Option String) (passphrase : String) (host timestamp : String)
    (symbol : String) (orderId clientOid : Option String)
    (fetchRes : Option JValue × Option JValue) :
    Option OkexFetch × Except PyExc (Option JValue × Option JValue) :=
  let uri? : Option String :=
    if truthyOpt orderId then
      some ("/api/spot/v3/cancel_orders/" ++ orderId.getD "")
    else if truthyOpt clientOid then
      some ("/api/spot/v3/cancel_orders/" ++ clientOid.getD "")
    else none
  match uri? with
  | none => (none, .ok (none, some (.jStr "order id error!")))
  | some uri =>
    match okexRequest hmacB64 accessKey secretKey passphrase host timestamp
        "POST" uri none (some (.jObj [("instrument_id", .jStr symbol)])) none true with
    | .error e => (none, .error e)
    | .ok fc => (some fc, okexCancelOutcome orderId fetchRes)

/-- Embedding of `OKExRestAPI.revoke_orders` (`okex.py`, lines 188-226):
with truthy `order_ids`, warn (first component `true`) when more than 10
were given and send `[{"instrument_id": symbol, "order_ids": ids[:10]}]`;
the same for `client_oids` when `order_ids` is falsy; with neither, return
`(None, "order id list error!")` without any request.  The transport's
response is passed through unchanged. -/
def okexRevokeOrders (hmacB64 : String → String → String) (accessKey : String)
    (secretKey : Option String) (passphrase : String) (host timestamp : String)
    (symbol : String) (orderIds clientOids : Option (List String))
    (fetchRes : Option JValue × Option JValue) :
    Bool × Option OkexFetch × Except PyExc (Option JValue × Option JValue) :=
  let send (warned : Bool) (body : JValue) :
      Bool × Option OkexFetch × Except PyExc (Option JValue × Option JValue) :=
    match okexRequest hmacB64 accessKey secretKey passphrase host timestamp
        "POST" "/api/spot/v3/cancel_batch_orders" none (some body) none true with
    | .error e => (warned, none, .error e)
    | .ok fc => (warned, some fc, .ok fetchRes)
  if truthyList orderIds then
    let ids := pyOptList orderIds
    send (decide (ids.length > 10))
      (.jArr [.jObj [("instrument_id", .jStr symbol),
                     ("order_ids", .jArr ((ids.take 10).map .jStr))]])
  else if truthyList clientOids then
    let ids := pyOptList clientOids
    send (decide (ids.length > 10))
      (.jArr [.jObj [("instrument_id", .jStr symbol),
                     ("client_oids", .jArr ((ids.take 10).map .jStr))]])
  else
    (false, none, .ok (none, some (.jStr "order id list error!")))

/-- The query params of the fetch call a Huobi request issues (empty when
the request raised before the transport). -/
def huobiSentParams
    (r : Except PyExc (HuobiFetch × (Option JValue × Option JValue))) :
    List (String × String) :=
  match r with
  | .ok (fc, _) => pyOptList fc.params
  | .error _ => []

/-- Item assignment changes exactly the assigned key's lookup. -/
theorem alookup_dictSet (d : List (String × β)) (k' v k) :
    alookup k (dictSet d k' v) = if k = k' then some v else alookup k d := by
  induction d with
  | nil => simp [dictSet, alookup]
  | cons p rest ih =>
    by_cases hpk : p.1 = k'
    · by_cases hk : k = k' <;> simp [dictSet, alookup, hpk, hk]
    · by_cases hk : k = p.1
      · have : ¬k = k' := fun h => hpk (by rw [← hk, h])
        simp [dictSet, alookup, hpk, hk, this]
      · simp [dictSet, alookup, hpk, hk, ih]

/-- The query join of a non-empty parameter dict is a non-empty string. -/
theorem joinPairs_ne_nil (d : List (String × String)) (h : d ≠ []) :
    joinPairs d ≠ "" := by
  match d with
  | [] => exact absurd rfl h
  | [(k, v)] =>
    intro he
    have hl : (joinPairs [(k, v)]).length = 0 := by rw [he]; rfl
    simp [joinPairs, String.length_append] at hl
    exact absurd hl.1.2 (by decide)
  | (k, v) :: q :: rest =>
    intro he
    have hl : (joinPairs ((k, v) :: q :: rest)).length = 0 := by rw [he]; rfl
    simp [joinPairs, String.length_append] at hl
    exact absurd hl.1.1.1.2 (by decide)

/-- Lookup in a dict with distinct keys is invariant under permutation of
the pairs. -/
theorem alookup_perm {p₁ p₂ : List (String × β)} (h : p₁.Perm p₂) :
    (p₁.map Prod.fst).Nodup → ∀ k, alookup k p₁ = alookup k p₂ := by
  induction h with
  | nil => exact fun _ _ => rfl
  | cons x _ ih =>
    intro hnd k
    simp only [List.map_cons, List.nodup_cons] at hnd
    by_cases hk : k = x.1 <;> simp [alookup, hk, ih hnd.2 k]
  | swap x y l =>
    intro hnd k
    simp only [List.map_cons, List.nodup_cons, List.mem_cons] at hnd
    have hxy : ¬y.1 = x.1 := fun h => hnd.1 (Or.inl h)
    have hyx : ¬x.1 = y.1 := fun h => hxy h.symm
    by_cases hky : k = y.1
    · have : ¬k = x.1 := fun h => hxy (by rw [← hky, h])
      simp [alookup, hky, this, hxy, hyx]
    · by_cases hkx : k = x.1 <;> simp [alookup, hky, hkx, hxy, hyx]
  | trans h₁ _ ih₁ ih₂ =>
    intro hnd k
    have hnd' := ((h₁.map Prod.fst).nodup_iff).mp hnd
    rw [ih₁ hnd k, ih₂ hnd' k]

/-- A string with a non-empty prefix is non-empty. -/
theorem append_ne_empty_left (a b : String) (h : a ≠ "") : a ++ b ≠ "" := by
  intro he
  have hd : a.data ++ b.data = [] := by
    have hc := congrArg String.data he
    simpa using hc
  have ha : a.data = [] := (List.append_eq_nil.mp hd).1
  apply h
  cases a
  simp_all

/-- C9: on the Binance adapter, an authenticated request whose merged
query+body parameter set is empty is sent with no signature parameter and
no query string at all — the signing step is skipped entirely (even a
`None` secret key raises nothing) — while the `X-MBX-APIKEY` header is
still attached. -/
theorem c9_binance_empty_params_no_signature
    (hmacHex : String → String → String) (ak : String) (sk : Option String)
    (host method uri : String) (params body headers0 : Option (List (String × String)))
    (h : pyDictMerge params body = []) :
    binanceRequest hmacHex ak sk host method uri params body headers0 true =
      .ok ⟨method, host ++ uri, dictSet (pyOptList headers0) "X-MBX-APIKEY" ak⟩ := by
  simp [binanceRequest, h, Except.map]

/-- C9 witness: the listen-key style call `request("PUT", uri, auth=True)`
with no parameters issues exactly the bare fetch with the API-key header. -/
theorem c9_witness :
    binanceRequest (fun k q => k ++ "#" ++ q) "AK" none "https://api.binance.com"
      "PUT" "/api/v3/userDataStream" none none none true =
      .ok ⟨"PUT", "https://api.binance.com" ++ "/api/v3/userDataStream",
        dictSet (pyOptList none) "X-MBX-APIKEY" "AK"⟩ :=
  c9_binance_empty_params_no_signature _ "AK" none _ "PUT" _ none none none rfl

/-- C10: an OKEx `create_order` whose `order_type` is neither the `LIMIT`
nor the `MARKET` constant returns `(None, "order type error!")` and issues
no network request. -/
theorem c10_okex_bad_order_type
    (hmacB64 : String → String → String) (ak : String) (sk : Option String)
    (pp host ts action symbol price quantity orderType : String)
    (clientOid : Option String) (fetchRes : Option JValue × Option JValue)
    (h1 : orderType ≠ ORDER_TYPE_LIMIT) (h2 : orderType ≠ ORDER_TYPE_MARKET) :
    okexCreateOrder hmacB64 ak sk pp host ts action symbol price quantity
      orderType clientOid fetchRes =
      (none, .ok (none, some (.jStr "order type error!"))) := by
  simp [okexCreateOrder, h1, h2]

/-- C10 witness: a `"STOP"` order is rejected locally. -/
theorem c10_witness :
    okexCreateOrder (fun k m => k ++ "#" ++ m) "AK" (some "SK") "PP"
      "https://www.okex.com" "1597026383.085" "BUY" "BTC-USDT" "9000" "0.01"
      "STOP" none (none, none) =
      (none, .ok (none, some (.jStr "order type error!"))) :=
  c10_okex_bad_order_type _ "AK" (some "SK") "PP" _ _ "BUY" _ "9000" "0.01"
    "STOP" none (none, none) (by decide) (by decide)

/-- C5: on a transport success (`error` slot empty), the Huobi normalizer
returns the whole parsed body in the error slot whenever its `status` field
is anything other than `"ok"` — and `(body, None)` when it is `"ok"`. -/
theorem c5_huobi_envelope_gate (fs : List (String × JValue)) :
    (isStatusOk (alookup "status" fs) = false →
      huobiNormalize (some (.jObj fs), none) = .ok (none, some (.jObj fs))) ∧
    (isStatusOk (alookup "status" fs) = true →
      huobiNormalize (some (.jObj fs), none) = .ok (some (.jObj fs), none)) := by
  constructor <;> intro h <;> simp [huobiNormalize, errTruthy, h]

/-- C5 witness: HTTP 200 with body `{"status": "error"}` comes back as
`(None, body)`, and `{"status": "ok"}` as `(body, None)`. -/
theorem c5_witness :
    huobiNormalize (some (.jObj [("status", .jStr "error")]), none) =
      .ok (none, some (.jObj [("status", .jStr "error")])) ∧
    huobiNormalize (some (.jObj [("status", .jStr "ok"), ("data", .jNum 3)]), none) =
      .ok (some (.jObj [("status", .jStr "ok"), ("data", .jNum 3)]), none) :=
  ⟨(c5_huobi_envelope_gate [("status", .jStr "error")]).1 rfl,
   (c5_huobi_envelope_gate [("status", .jStr "ok"), ("data", .jNum 3)]).2 rfl⟩

/-- Helper shared by several theorems: the exact fetch call of an
authenticated Binance request with a present secret key and a non-empty
merged parameter dict. -/
theorem binanceRequest_auth_signed
    (hmacHex : String → String → String) (ak sk : String)
    (host method uri : String) (params body headers0 : Option (List (String × String)))
    (h : pyDictMerge params body ≠ []) :
    binanceRequest hmacHex ak (some sk) host method uri params body headers0 true =
      .ok ⟨method,
        host ++ uri ++ "?" ++ joinPairs (pyDictMerge params body) ++ "&signature=" ++
          hmacHex sk (joinPairs (pyDictMerge params body)),
        dictSet (pyOptList headers0) "X-MBX-APIKEY" ak⟩ := by
  have hq := joinPairs_ne_nil _ h
  have hq2 : joinPairs (pyDictMerge params body) ++ "&signature=" ++
      hmacHex sk (joinPairs (pyDictMerge params body)) ≠ "" :=
    append_ne_empty_left _ _ (append_ne_empty_left _ _ hq)
  simp only [binanceRequest, List.isEmpty_iff, Except.map]
  rw [if_neg h, if_pos ⟨trivial, hq⟩]
  simp [hq2, String.append_assoc]
  intro hcontra
  rw [← String.append_assoc] at hcontra
  exact absurd hcontra hq2

/-- C2: on every authenticated Binance request with a non-empty merged
parameter set, the query string sent is the `&`-join of `key=value` pairs
of the merged query+body dict in insertion order, followed by
`&signature=` and the HMAC digest (keyed by the secret key) of exactly
that unsigned join; the signature is a query parameter, and the only
header touched is `X-MBX-APIKEY`. -/
theorem c2_binance_query_signature
    (hmacHex : String → String → String) (ak sk : String)
    (host method uri : String) (params body headers0 : Option (List (String × String)))
    (h : pyDictMerge params body ≠ []) :
    (binanceRequest hmacHex ak (some sk) host method uri params body headers0 true =
      .ok ⟨method,
        host ++ uri ++ "?" ++ joinPairs (pyDictMerge params body) ++ "&signature=" ++
          hmacHex sk (joinPairs (pyDictMerge params body)),
        dictSet (pyOptList headers0) "X-MBX-APIKEY" ak⟩) ∧
    alookup "signature" (dictSet (pyOptList headers0) "X-MBX-APIKEY" ak) =
      alookup "signature" (pyOptList headers0) := by
  constructor
  · exact binanceRequest_auth_signed hmacHex ak sk host method uri params body headers0 h
  · rw [alookup_dictSet]
    simp

/-- C2 witness: a two-parameter authenticated GET; the unsigned join is
`symbol=BTCUSDT&limit=10`, and the signature query parameter is the digest
(here an inert pairing function) of exactly that string. -/
theorem c2_witness :
    binanceRequest (fun k q => k ++ "#" ++ q) "AK" (some "SK")
      "https://api.binance.com" "GET" "/api/v3/depth"
      (some [("symbol", "BTCUSDT"), ("limit", "10")]) none none true =
      .ok ⟨"GET",
        "https://api.binance.com/api/v3/depth?symbol=BTCUSDT&limit=10&signature=SK#symbol=BTCUSDT&limit=10",
        [("X-MBX-APIKEY", "AK")]⟩ :=
  (c2_binance_query_signature (fun k q => k ++ "#" ++ q) "AK" "SK"
    "https://api.binance.com" "GET" "/api/v3/depth"
    (some [("symbol", "BTCUSDT"), ("limit", "10")]) none none (by decide)).1

/-- C3: the Huobi signer sorts keys lexicographically and URL-encodes the
looked-up values before joining, so two parameter dicts holding the same
key-value pairs in any insertion orders produce the same signature for
every method, host, path and secret key — whereas permuting the insertion
order of Binance's merged parameters may change Binance's concatenated
signing string. -/
theorem c3_huobi_order_invariance :
    (∀ (hmacB64 : String → String → String) (sk : Option String)
        (method hostUrl path : String) (p₁ p₂ : List (String × String)),
        p₁.Perm p₂ → (p₁.map Prod.fst).Nodup →
        huobiGenerateSignature hmacB64 sk method p₁ hostUrl path =
          huobiGenerateSignature hmacB64 sk method p₂ hostUrl path) ∧
    (∃ q₁ q₂ : List (String × String),
        q₁.Perm q₂ ∧ joinPairs q₁ ≠ joinPairs q₂) := by
  constructor
  · intro hb sk method hostUrl path p₁ p₂ hperm hnd
    have hkeys : sortStrings (p₁.map Prod.fst) = sortStrings (p₂.map Prod.fst) := by
      unfold sortStrings
      exact List.eq_of_perm_of_sorted (r := (· ≤ ·))
        ((List.perm_insertionSort _ _).trans
          ((hperm.map Prod.fst).trans (List.perm_insertionSort _ _).symm))
        (List.sorted_insertionSort _ _) (List.sorted_insertionSort _ _)
    have hfun : (fun k => (k, pyQuote ((alookup k p₁).getD ""))) =
        (fun k => (k, pyQuote ((alookup k p₂).getD ""))) := by
      funext k
      rw [alookup_perm hperm hnd k]
    unfold huobiGenerateSignature
    rw [hkeys, hfun]
  · exact ⟨[("b", "2"), ("a", "1")], [("a", "1"), ("b", "2")],
      List.Perm.swap _ _ _, by decide⟩

/-- C3 witness: the two insertion orders of `{a: 1, b: 2}` give one and the
same Huobi signature. -/
theorem c3_witness :
    huobiGenerateSignature (fun k p => k ++ "#" ++ p) (some "SK") "GET"
      [("b", "2"), ("a", "1")] "api.huobi.pro" "/v1/x" =
    huobiGenerateSignature (fun k p => k ++ "#" ++ p) (some "SK") "GET"
      [("a", "1"), ("b", "2")] "api.huobi.pro" "/v1/x" :=
  c3_huobi_order_invariance.1 _ (some "SK") "GET" "api.huobi.pro" "/v1/x"
    [("b", "2"), ("a", "1")] [("a", "1"), ("b", "2")]
    (List.Perm.swap _ _ _) (by decide)

/-- C6 counterexample: with `order_id` non-null but empty (`""`) and a
non-null `client_oid`, both ids are non-null yet the cancel path is built
from `client_oid` — the code tests Python truthiness, not non-nullness. -/
theorem c6_counterexample :
    ((okexRevokeOrder (fun k m => k ++ "#" ++ m) "AK" (some "SK") "PP"
        "https://www.okex.com" "T" "BTC-USDT" (some "") (some "oid123")
        (none, some (.jStr "boom"))).1.map OkexFetch.url) =
      some "https://www.okex.com/api/spot/v3/cancel_orders/oid123" := rfl

/-- C6 amended: whenever `order_id` is truthy (non-null and non-empty) the
cancel path is built from it, regardless of `client_oid`; when `order_id`
is falsy and `client_oid` truthy, the path uses `client_oid`. -/
theorem c6_okex_cancel_truthy_precedence
    (hmacB64 : String → String → String) (ak sk pp host ts symbol : String)
    (orderId clientOid : Option String) (fetchRes : Option JValue × Option JValue) :
    (truthyOpt orderId = true →
      ((okexRevokeOrder hmacB64 ak (some sk) pp host ts symbol orderId clientOid
          fetchRes).1.map OkexFetch.url) =
        some (host ++ "/api/spot/v3/cancel_orders/" ++ orderId.getD "")) ∧
    (truthyOpt orderId = false → truthyOpt clientOid = true →
      ((okexRevokeOrder hmacB64 ak (some sk) pp host ts symbol orderId clientOid
          fetchRes).1.map OkexFetch.url) =
        some (host ++ "/api/spot/v3/cancel_orders/" ++ clientOid.getD "")) := by
  constructor
  · intro h
    simp [okexRevokeOrder, okexRequest, okexUriWithQuery, okexBodyStr, h,
      truthyList, pyOptList, String.append_assoc]
  · intro h1 h2
    simp [okexRevokeOrder, okexRequest, okexUriWithQuery, okexBodyStr, h1, h2,
      truthyList, pyOptList, String.append_assoc]

/-- C6 witness: with both ids truthy the path uses `order_id`. -/
theorem c6_witness :
    ((okexRevokeOrder (fun k m => k ++ "#" ++ m) "AK" (some "SK") "PP"
        "https://www.okex.com" "T" "BTC-USDT" (some "123") (some "c")
        (none, some (.jStr "boom"))).1.map OkexFetch.url) =
      some ("https://www.okex.com" ++ "/api/spot/v3/cancel_orders/" ++ "123") :=
  (c6_okex_cancel_truthy_precedence _ "AK" "SK" "PP" _ "T" _ (some "123")
    (some "c") _).1 rfl

/-- C1 counterexample: an OKEx `revoke_order` with non-null `order_id`
whose underlying request yields an error returns `(order_id, error)` —
the result slot holds the order id, not `None`, so both slots of the pair
are populated at once. -/
theorem c1_counterexample :
    (okexRevokeOrder (fun k m => k ++ "#" ++ m) "AK" (some "SK") "PP"
        "https://www.okex.com" "T" "BTC-USDT" (some "123") none
        (none, some (.jStr "boom"))).2 =
      .ok (some (.jStr "123"), some (.jStr "boom")) := rfl

/-- C1 amended: for OKEx `revoke_order` with a truthy `order_id`, when the
underlying request yields a truthy error, or a body whose `result` field
exists and is falsy, the returned pair carries `order_id` in the result
slot alongside the error value — both slots populated, contrary to the
outcome-exclusivity rule the other operations follow. -/
theorem c1_okex_revoke_result_slot
    (hmacB64 : String → String → String) (ak sk pp host ts symbol : String)
    (orderId clientOid : Option String) (fetchRes : Option JValue × Option JValue)
    (hoid : truthyOpt orderId = true) :
    (errTruthy fetchRes.2 = true →
      (okexRevokeOrder hmacB64 ak (some sk) pp host ts symbol orderId clientOid
          fetchRes).2 = .ok (orderId.map .jStr, fetchRes.2)) ∧
    (∀ fs v, errTruthy fetchRes.2 = false → fetchRes.1 = some (.jObj fs) →
      alookup "result" fs = some v → pyTruthy v = false →
      (okexRevokeOrder hmacB64 ak (some sk) pp host ts symbol orderId clientOid
          fetchRes).2 = .ok (orderId.map .jStr, some (.jObj fs))) := by
  constructor
  · intro herr
    simp [okexRevokeOrder, okexRequest, okexUriWithQuery, okexBodyStr,
      okexCancelOutcome, hoid, herr, truthyList, pyOptList]
  · intro fs v herr hres hlook htr
    simp [okexRevokeOrder, okexRequest, okexUriWithQuery, okexBodyStr,
      okexCancelOutcome, hoid, herr, hres, hlook, htr, truthyList, pyOptList]

/-- C1 witness: a concrete errored cancel returns the order id and the
error together. -/
theorem c1_witness :
    (okexRevokeOrder (fun k m => k ++ "#" ++ m) "AK" (some "SK") "PP"
        "https://www.okex.com" "T" "ETH-USDT" (some "42") none
        (none, some (.jStr "rate limit"))).2 =
      .ok ((some "42").map JValue.jStr,
        ((none, some (JValue.jStr "rate limit")) : Option JValue × Option JValue).2) :=
  (c1_okex_revoke_result_slot _ "AK" "SK" "PP" _ "T" _ (some "42") none
    (none, some (.jStr "rate limit")) rfl).1 rfl

/-- C7: OKEx `revoke_orders` given more than 10 order ids sends exactly the
first 10 in the request body, flags only a warning (first component), and
the truncation itself produces no error — the outcome is the transport's
response passed through unchanged; the same holds for `client_oids` when
`order_ids` is falsy. -/
theorem c7_okex_batch_truncation
    (hmacB64 : String → String → String) (ak sk pp host ts symbol : String)
    (orderIds clientOids : Option (List String))
    (fetchRes : Option JValue × Option JValue) :
    (∀ ids : List String, ids ≠ [] →
      (okexRevokeOrders hmacB64 ak (some sk) pp host ts symbol (some ids)
          clientOids fetchRes).1 = decide (ids.length > 10) ∧
      ((okexRevokeOrders hmacB64 ak (some sk) pp host ts symbol (some ids)
          clientOids fetchRes).2.1.map OkexFetch.body) =
        some (.str (jsonDumps (.jArr [.jObj
          [("instrument_id", .jStr symbol),
           ("order_ids", .jArr ((ids.take 10).map .jStr))]]))) ∧
      (okexRevokeOrders hmacB64 ak (some sk) pp host ts symbol (some ids)
          clientOids fetchRes).2.2 = .ok fetchRes) ∧
    (∀ cids : List String, truthyList orderIds = false → cids ≠ [] →
      (okexRevokeOrders hmacB64 ak (some sk) pp host ts symbol orderIds
          (some cids) fetchRes).1 = decide (cids.length > 10) ∧
      ((okexRevokeOrders hmacB64 ak (some sk) pp host ts symbol orderIds
          (some cids) fetchRes).2.1.map OkexFetch.body) =
        some (.str (jsonDumps (.jArr [.jObj
          [("instrument_id", .jStr symbol),
           ("client_oids", .jArr ((cids.take 10).map .jStr))]]))) ∧
      (okexRevokeOrders hmacB64 ak (some sk) pp host ts symbol orderIds
          (some cids) fetchRes).2.2 = .ok fetchRes) := by
  constructor
  · intro ids hne
    refine ⟨?_, ?_, ?_⟩ <;>
      simp [okexRevokeOrders, okexRequest, okexUriWithQuery, okexBodyStr,
        truthyList, pyOptList, List.isEmpty_iff, hne, pyTruthy]
  · intro cids hfalsy hne
    refine ⟨?_, ?_, ?_⟩ <;>
    · simp only [okexRevokeOrders, hfalsy]
      simp [okexRequest, okexUriWithQuery, okexBodyStr, truthyList, pyOptList,
        List.isEmpty_iff, hne, pyTruthy]

/-- C7 witness: fifteen order ids are truncated to the first ten, with the
warning flag set and the transport outcome passed through. -/
theorem c7_witness :
    (okexRevokeOrders (fun k m => k ++ "#" ++ m) "AK" (some "SK") "PP"
        "https://www.okex.com" "T" "BTC-USDT"
        (some ["1", "2", "3", "4", "5", "6", "7", "8", "9", "10", "11", "12",
               "13", "14", "15"]) none (none, none)).1 =
      decide ((["1", "2", "3", "4", "5", "6", "7", "8", "9", "10", "11", "12",
               "13", "14", "15"] : List String).length > 10) ∧
    ((okexRevokeOrders (fun k m => k ++ "#" ++ m) "AK" (some "SK") "PP"
        "https://www.okex.com" "T" "BTC-USDT"
        (some ["1", "2", "3", "4", "5", "6", "7", "8", "9", "10", "11", "12",
               "13", "14", "15"]) none (none, none)).2.1.map OkexFetch.body) =
      some (.str (jsonDumps (.jArr [.jObj
        [("instrument_id", .jStr "BTC-USDT"),
         ("order_ids", .jArr (((["1", "2", "3", "4", "5", "6", "7", "8", "9",
            "10", "11", "12", "13", "14", "15"] : List String).take 10).map .jStr))]]))) ∧
    (okexRevokeOrders (fun k m => k ++ "#" ++ m) "AK" (some "SK") "PP"
        "https://www.okex.com" "T" "BTC-USDT"
        (some ["1", "2", "3", "4", "5", "6", "7", "8", "9", "10", "11", "12",
               "13", "14", "15"]) none (none, none)).2.2 =
      .ok (none, none) :=
  (c7_okex_batch_truncation _ "AK" "SK" "PP" _ "T" _
    (some ["1", "2", "3", "4", "5", "6", "7", "8", "9", "10", "11", "12",
           "13", "14", "15"]) none (none, none)).1
    ["1", "2", "3", "4", "5", "6", "7", "8", "9", "10", "11", "12", "13",
     "14", "15"] (by decide)

/-- C4 counterexample: with the secret key absent, an authenticated Binance
account request fails with an `AttributeError` (`None.encode(...)`), which
is not the `ConfigurationError` the claim names — indeed no
`ConfigurationError` exists anywhere in the sources. -/
theorem c4_counterexample :
    binanceRequest (fun k q => k ++ "#" ++ q) "AK" none "https://api.binance.com"
      "GET" "/api/v3/account" (some [("timestamp", "1597026383085")]) none none
      true = .error .attributeError ∧
    PyExc.attributeError ≠ PyExc.configurationError :=
  ⟨rfl, by decide⟩

/-- C4 amended: with the secret key absent and `auth=True`, every adapter's
signer raises an unhandled builtin exception — `AttributeError` for Binance
(whenever the merged parameter set is non-empty, as it is for every
authenticated Binance operation) and for Huobi, `TypeError` for OKEx — and
the transport is never invoked (no fetch call is produced). -/
theorem c4_missing_secret_raises :
    (∀ (hmacHex : String → String → String) (ak host method uri : String)
        (params body headers0 : Option (List (String × String))),
        pyDictMerge params body ≠ [] →
        binanceRequest hmacHex ak none host method uri params body headers0
          true = .error .attributeError) ∧
    (∀ (hmacB64 : String → String → String) (ak host hostName ts method uri : String)
        (params0 : Option (List (String × String))) (body : Option JValue)
        (fetchRes : Option JValue × Option JValue),
        huobiRequest hmacB64 ak none host hostName ts method uri params0 body
          true fetchRes = .error .attributeError) ∧
    (∀ (hmacB64 : String → String → String) (ak pp host ts method uri : String)
        (params : Option (List (String × String))) (body : Option JValue)
        (headers0 : Option (List (String × String))),
        okexRequest hmacB64 ak none pp host ts method uri params body headers0
          true = .error .typeError) := by
  refine ⟨?_, ?_, ?_⟩
  · intro hmacHex ak host method uri params body headers0 h
    have hq := joinPairs_ne_nil _ h
    simp only [binanceRequest, List.isEmpty_iff]
    rw [if_neg h, if_pos ⟨trivial, hq⟩]
    rfl
  · intro hmacB64 ak host hostName ts method uri params0 body fetchRes
    simp [huobiRequest, huobiGenerateSignature]
  · intro hmacB64 ak pp host ts method uri params body headers0
    simp [okexRequest]

/-- C4 witness: concrete missing-key calls on all three adapters raise
before the transport. -/
theorem c4_witness :
    binanceRequest (fun k q => k ++ "#" ++ q) "AK" none "https://api.binance.com"
      "DELETE" "/api/v3/order" (some [("symbol", "BTCUSDT"), ("timestamp", "1")])
      none none true = .error .attributeError ∧
    huobiRequest (fun k p => k ++ "#" ++ p) "AK" none "https://api.huobi.pro"
      "api.huobi.pro" "2020-08-10T02:26:23" "GET" "/v1/account/accounts" none
      none true (none, none) = .error .attributeError ∧
    okexRequest (fun k m => k ++ "#" ++ m) "AK" none "PP" "https://www.okex.com"
      "1597026383.085" "GET" "/api/spot/v3/accounts" none none none true =
      .error .typeError :=
  ⟨c4_missing_secret_raises.1 _ "AK" "https://api.binance.com" "DELETE"
      "/api/v3/order" (some [("symbol", "BTCUSDT"), ("timestamp", "1")]) none
      none (by decide),
   c4_missing_secret_raises.2.1 _ "AK" "https://api.huobi.pro" "api.huobi.pro"
      "2020-08-10T02:26:23" "GET" "/v1/account/accounts" none none (none, none),
   c4_missing_secret_raises.2.2 _ "AK" "PP" "https://www.okex.com"
      "1597026383.085" "GET" "/api/spot/v3/accounts" none none none⟩

/-- C8 counterexample: the Huobi signer inserts `AccessKeyId` (and three
further auth params) into the query dict of an authenticated request —
an addition that is neither the signature parameter nor a header, contrary
to the claim that nothing else is inserted into the query. -/
theorem c8_counterexample :
    alookup "AccessKeyId" (huobiSentParams (huobiRequest
      (fun k p => k ++ "#" ++ p) "AK" (some "SK") "https://api.huobi.pro"
      "api.huobi.pro" "T" "GET" "/v1/order/openOrders"
      (some [("symbol", "ethusdt")]) none true (none, some (.jStr "err")))) =
      some "AK" ∧
    alookup "AccessKeyId" [("symbol", "ethusdt")] = none :=
  ⟨rfl, rfl⟩

/-- C8 amended: on every authenticated request the signer preserves every
already-built query/body pair — for Huobi provided the caller's params
avoid the five reserved auth keys, which every adapter operation does —
and the only additions are the signature (query parameter for Binance,
`Signature` query param for Huobi, `OK-ACCESS-SIGN` header for OKEx), the
authentication headers, and, for Huobi, the four authentication query
parameters `AccessKeyId`, `SignatureMethod`, `SignatureVersion`,
`Timestamp`. -/
theorem c8_signer_preserves_pairs :
    (∀ (hmacHex : String → String → String) (ak sk host method uri : String)
        (params body headers0 : Option (List (String × String))),
        pyDictMerge params body ≠ [] →
        binanceRequest hmacHex ak (some sk) host method uri params body
          headers0 true =
          .ok ⟨method, host ++ uri ++ "?" ++ joinPairs (pyDictMerge params body)
            ++ "&signature=" ++ hmacHex sk (joinPairs (pyDictMerge params body)),
            dictSet (pyOptList headers0) "X-MBX-APIKEY" ak⟩) ∧
    (∀ (hmacB64 : String → String → String)
        (ak sk host hostName ts method uri : String)
        (ps : List (String × String)) (body : Option JValue)
        (fetchRes : Option JValue × Option JValue) (k : String),
        errTruthy fetchRes.2 = true →
        (k ∉ huobiReservedKeys →
          alookup k (huobiSentParams (huobiRequest hmacB64 ak (some sk) host
            hostName ts method uri (some ps) body true fetchRes)) =
            alookup k ps) ∧
        alookup "AccessKeyId" (huobiSentParams (huobiRequest hmacB64 ak
          (some sk) host hostName ts method uri (some ps) body true fetchRes)) =
          some ak ∧
        alookup "Timestamp" (huobiSentParams (huobiRequest hmacB64 ak
          (some sk) host hostName ts method uri (some ps) body true fetchRes)) =
          some ts ∧
        (alookup "Signature" (huobiSentParams (huobiRequest hmacB64 ak
          (some sk) host hostName ts method uri (some ps) body true
          fetchRes))).isSome = true) ∧
    (∀ (hmacB64 : String → String → String) (ak sk pp host ts method uri : String)
        (params : Option (List (String × String))) (body : Option JValue)
        (headers0 : Option (List (String × String))) (k : String),
        okexRequest hmacB64 ak (some sk) pp host ts method uri params body
          headers0 true =
          .ok ⟨method, host ++ okexUriWithQuery uri params, .str (okexBodyStr body),
            some (okexAuthHeaders (pyOptList headers0) ak
              (hmacB64 sk (ts ++ method.toUpper ++ okexUriWithQuery uri params ++
                okexBodyStr body)) ts pp)⟩ ∧
        (k ∉ okexReservedHeaderKeys →
          alookup k (okexAuthHeaders (pyOptList headers0) ak
            (hmacB64 sk (ts ++ method.toUpper ++ okexUriWithQuery uri params ++
              okexBodyStr body)) ts pp) =
            alookup k (pyOptList headers0))) := by
  refine ⟨?_, ?_, ?_⟩
  · intro hmacHex ak sk host method uri params body headers0 h
    exact binanceRequest_auth_signed hmacHex ak sk host method uri params body
      headers0 h
  · intro hb ak sk host hn ts method uri ps body fr k herr
    refine ⟨?_, ?_, ?_, ?_⟩
    · intro hk
      simp only [huobiReservedKeys, List.mem_cons, List.not_mem_nil, or_false,
        not_or] at hk
      obtain ⟨h1, h2, h3, h4, h5⟩ := hk
      simp [huobiRequest, huobiGenerateSignature, huobiFinish, huobiNormalize,
        herr, huobiSentParams, huobiAuthParams, pyOptList, alookup_dictSet,
        h1, h2, h3, h4, h5]
    all_goals
      simp [huobiRequest, huobiGenerateSignature, huobiFinish, huobiNormalize,
        herr, huobiSentParams, huobiAuthParams, pyOptList, alookup_dictSet]
  · intro hb ak sk pp host ts method uri params body headers0 k
    constructor
    · simp [okexRequest]
    · intro hk
      simp only [okexReservedHeaderKeys, List.mem_cons, List.not_mem_nil,
        or_false, not_or] at hk
      obtain ⟨h1, h2, h3, h4, h5⟩ := hk
      simp [okexAuthHeaders, alookup_dictSet, h1, h2, h3, h4, h5]

/-- C8 witness: a signed Binance order keeps its pair and gains only the
signature; the Huobi signer leaves the caller's `symbol` pair intact; the
OKEx signer on an authenticated GET with query params (`get_open_orders`)
leaves the caller-built query exactly as built — both pairs survive in the
sent URL — sends the empty body string, adds exactly the five auth
headers, and leaves a non-reserved header slot untouched. -/
theorem c8_witness :
    binanceRequest (fun k q => k ++ "#" ++ q) "AK" (some "SK")
      "https://api.binance.com" "POST" "/api/v3/order" none
      (some [("symbol", "BTCUSDT")]) none true =
      .ok ⟨"POST",
        "https://api.binance.com/api/v3/order?symbol=BTCUSDT&signature=SK#symbol=BTCUSDT",
        [("X-MBX-APIKEY", "AK")]⟩ ∧
    alookup "symbol" (huobiSentParams (huobiRequest (fun k p => k ++ "#" ++ p)
      "AK" (some "SK") "https://api.huobi.pro" "api.huobi.pro" "T" "GET"
      "/v1/order/openOrders" (some [("symbol", "ethusdt")]) none true
      (none, some (.jStr "err")))) = some "ethusdt" ∧
    okexRequest (fun k m => k ++ "#" ++ m) "AK" (some "SK") "PP"
      "https://www.okex.com" "T" "GET" "/api/spot/v3/orders_pending"
      (some [("instrument_id", "BTC-USDT"), ("limit", "100")]) none none true =
      .ok ⟨"GET",
        "https://www.okex.com/api/spot/v3/orders_pending?instrument_id=BTC-USDT&limit=100",
        .str "",
        some (okexAuthHeaders [] "AK"
          ("SK" ++ "#" ++ ("T" ++ "GET".toUpper ++
            "/api/spot/v3/orders_pending?instrument_id=BTC-USDT&limit=100" ++ ""))
          "T" "PP")⟩ ∧
    alookup "Accept-Language" (okexAuthHeaders (pyOptList none) "AK"
      ((fun k m => k ++ "#" ++ m) "SK" ("T" ++ "GET".toUpper ++
        okexUriWithQuery "/api/spot/v3/orders_pending"
          (some [("instrument_id", "BTC-USDT"), ("limit", "100")]) ++
        okexBodyStr none))
      "T" "PP") = alookup "Accept-Language" (pyOptList none) := by
  have hc : ("instrument_id" : String) ≤ "limit" := by
    simp
    decide
  have h1 : okexUriWithQuery "/api/spot/v3/orders_pending"
      (some [("instrument_id", "BTC-USDT"), ("limit", "100")]) =
      "/api/spot/v3/orders_pending?instrument_id=BTC-USDT&limit=100" := by
    simp [okexUriWithQuery, truthyList, pyOptList, sortStrings,
      List.insertionSort, List.orderedInsert, hc, alookup, joinPairs]
  refine ⟨?_, ?_, ?_, ?_⟩
  · exact c8_signer_preserves_pairs.1 _ "AK" "SK" "https://api.binance.com"
      "POST" "/api/v3/order" none (some [("symbol", "BTCUSDT")]) none (by decide)
  · exact (c8_signer_preserves_pairs.2.1 _ "AK" "SK" "https://api.huobi.pro"
      "api.huobi.pro" "T" "GET" "/v1/order/openOrders" [("symbol", "ethusdt")]
      none (none, some (.jStr "err")) "symbol" rfl).1 (by decide)
  · have h := (c8_signer_preserves_pairs.2.2 (fun k m => k ++ "#" ++ m) "AK"
      "SK" "PP" "https://www.okex.com" "T" "GET" "/api/spot/v3/orders_pending"
      (some [("instrument_id", "BTC-USDT"), ("limit", "100")]) none none
      "Accept-Language").1
    rw [h1] at h
    exact h
  · exact (c8_signer_preserves_pairs.2.2 (fun k m => k ++ "#" ++ m) "AK" "SK"
      "PP" "https://www.okex.com" "T" "GET" "/api/spot/v3/orders_pending"
      (some [("instrument_id", "BTC-USDT"), ("limit", "100")]) none none
      "Accept-Language").2 (by decide)
